import Mathlib

/-!
Verification development for the arXiv abstract-to-title summarizer notebook
(abstract-to-title-summarizer.ipynb). The notebook is a linear script: it
loads newline-delimited JSON metadata into a pandas DataFrame, builds a
Hugging Face dataset, tokenizes abstracts and titles for a t5-small model,
trains with Keras, evaluates ROUGE-L through a metric callback, and builds a
summarization pipeline. The definitions below are a shallow embedding of the
repository code; external library calls (tokenizer, decoder, ROUGE, shuffle)
are modelled as explicit function parameters.
-/

namespace ArxivSummarizer

/-- Outcome of one raw line of the input file, as the loading loop in
notebook cell f8a3484e distinguishes them: a line whose strip() is empty, a
line that json.loads rejects with an exception, or a line parsed to a JSON
object. The subsequent .loc column selection keeps only the id, title and
abstract fields, so a parsed object is modelled by those three fields, each
present (some) or absent-or-null (none, a NaN cell in the DataFrame). -/
inductive JsonLine where
  | blank : JsonLine
  | malformed : JsonLine
  | record (id title abstract : Option String) : JsonLine
deriving DecidableEq

/-- Row of the DataFrame after the .loc column selection and before dropna:
the three selected columns, each possibly missing. -/
structure Row where
  id : Option String
  title : Option String
  abstract : Option String
deriving DecidableEq

/-- Projection of a parsed line to a DataFrame row; blank lines contribute
nothing (they are skipped by the loop) and a malformed line never reaches
the DataFrame (json.loads raises first). This projection is the simplified
cell view (a key absent from the object and a JSON null both give a missing
cell); the refined model below (SrcLine, toRaw, loadDf) keeps the two cases
apart, because column existence, and with it the KeyError path of the .loc
column selection, depends on key presence. -/
def toRow : JsonLine → Option Row
  | JsonLine.record i t a => some ⟨i, t, a⟩
  | _ => none

/-- Body of the loading loop in cell f8a3484e over the lines it iterates:
a blank line is skipped (continue), a malformed line makes json.loads raise
an uncaught JSONDecodeError (the whole load aborts, modelled as
Except.error), and a record line is appended to the records list. -/
def loadLines : List JsonLine → Except Unit (List Row)
  | [] => Except.ok []
  | JsonLine.blank :: rest => loadLines rest
  | JsonLine.malformed :: _ => Except.error ()
  | JsonLine.record i t a :: rest =>
      Except.map (fun rs => ⟨i, t, a⟩ :: rs) (loadLines rest)

/-- The full data-loading step of cell f8a3484e: the loop breaks as soon as
the enumerate index i reaches N, and that test comes before the blank-line
check, so exactly the first N raw lines of the file are examined (blank
lines among them consume loop budget). -/
def loadRecords (N : ℕ) (lines : List JsonLine) : Except Unit (List Row) :=
  loadLines (lines.take N)

def isBlank : JsonLine → Bool
  | JsonLine.blank => true
  | _ => false

/-- Number of lines whose strip() is nonempty. -/
def countNonBlank (lines : List JsonLine) : ℕ :=
  (lines.filter (fun l => !isBlank l)).length

/-- Predicate of the pandas dropna step: a row survives when all three
selected columns are present. -/
def complete (r : Row) : Bool :=
  r.id.isSome && r.title.isSome && r.abstract.isSome

/-- The dropna call: keep exactly the rows with no missing value. -/
def dropna (rs : List Row) : List Row := rs.filter (fun r => complete r)

/-- reset_index(drop = True): pair the surviving rows with consecutive
integer labels starting at k. -/
def withIdx : ℕ → List Row → List (ℕ × Row)
  | _, [] => []
  | k, r :: rs => (k, r) :: withIdx (k + 1) rs

/-- The success path of the DataFrame built in cell f8a3484e from the
parsed records: column selection (the Row type), then dropna, then
reset_index from 0. The .loc column selection can also raise a KeyError
when a selected column is absent from every record; that full behavior is
locDropnaReset below, which calls buildDf only on its success path. -/
def buildDf (rs : List Row) : List (ℕ × Row) := withIdx 0 (dropna rs)

theorem loadLines_ok (lines : List JsonLine)
    (h : ∀ l ∈ lines, l ≠ JsonLine.malformed) :
    loadLines lines = Except.ok (lines.filterMap toRow) := by
  induction lines with
  | nil => rfl
  | cons hd tl ih =>
    have htl : ∀ l ∈ tl, l ≠ JsonLine.malformed :=
      fun l hl => h l (List.mem_cons_of_mem _ hl)
    cases hd with
    | blank => simpa [loadLines, toRow] using ih htl
    | malformed => exact absurd rfl (h JsonLine.malformed (List.mem_cons_self _ _))
    | record i t a => simp [loadLines, toRow, ih htl, Except.map]

theorem withIdx_length (k : ℕ) (rs : List Row) :
    (withIdx k rs).length = rs.length := by
  induction rs generalizing k with
  | nil => rfl
  | cons r rs ih => simp [withIdx, ih]

theorem withIdx_map_snd (k : ℕ) (rs : List Row) :
    (withIdx k rs).map Prod.snd = rs := by
  induction rs generalizing k with
  | nil => rfl
  | cons r rs ih => simp [withIdx, ih]

theorem withIdx_map_fst (k : ℕ) (rs : List Row) :
    (withIdx k rs).map Prod.fst = (List.range rs.length).map (fun i => k + i) := by
  induction rs generalizing k with
  | nil => rfl
  | cons r rs ih =>
    have hf : (fun i => k + 1 + i) = (fun i => k + Nat.succ i) :=
      funext fun i => by omega
    simp [withIdx, ih, List.range_succ_eq_map, List.map_map, Function.comp, hf]

theorem filterMap_toRow_le (lines : List JsonLine) :
    (lines.filterMap toRow).length ≤ countNonBlank lines := by
  induction lines with
  | nil => simp [countNonBlank]
  | cons hd tl ih =>
    cases hd with
    | blank => simpa [toRow, countNonBlank, isBlank, List.filterMap_cons] using ih
    | malformed =>
        simp only [toRow, countNonBlank, isBlank, List.filterMap_cons, List.filter_cons]
        simp only [Bool.not_false, if_pos]
        simpa [List.length_cons, countNonBlank] using Nat.le_succ_of_le ih
    | record i t a =>
        simp only [toRow, countNonBlank, isBlank, List.filterMap_cons, List.filter_cons]
        simpa [List.length_cons, countNonBlank] using Nat.succ_le_succ ih

theorem filterMap_toRow_eq (lines : List JsonLine)
    (h : ∀ l ∈ lines, l ≠ JsonLine.malformed) :
    (lines.filterMap toRow).length = countNonBlank lines := by
  induction lines with
  | nil => simp [countNonBlank]
  | cons hd tl ih =>
    have htl : ∀ l ∈ tl, l ≠ JsonLine.malformed :=
      fun l hl => h l (List.mem_cons_of_mem _ hl)
    cases hd with
    | blank => simpa [toRow, countNonBlank, isBlank, List.filterMap_cons] using ih htl
    | malformed => exact absurd rfl (h JsonLine.malformed (List.mem_cons_self _ _))
    | record i t a =>
        simp only [toRow, countNonBlank, isBlank, List.filterMap_cons, List.filter_cons]
        simpa [List.length_cons, countNonBlank] using congrArg Nat.succ (ih htl)

theorem length_filter_lt (p : α → Bool) (l : List α) (x : α)
    (hx : x ∈ l) (hpx : p x = false) :
    (l.filter p).length < l.length := by
  induction l with
  | nil => cases hx
  | cons hd tl ih =>
    rcases List.mem_cons.mp hx with rfl | hmem
    · simp only [List.filter_cons, hpx, List.length_cons]
      exact Nat.lt_succ_of_le (List.length_filter_le _ _)
    · by_cases hp : p hd
      · simp only [List.filter_cons, hp, if_pos, List.length_cons]
        exact Nat.succ_lt_succ (ih hmem)
      · rw [List.filter_cons, if_neg hp]
        exact Nat.lt_succ_of_lt (ih hmem)

/-! Refined model of cell f8a3484e. The view above is enough for the
record-count bounds, but the DataFrame build has one more failure mode:
pd.DataFrame(records) forms its columns from the union of the keys of the
parsed objects, and .loc with the list of labels id, title, abstract raises
a KeyError when any requested label is absent from those columns, that is,
when the key is missing from every record (in particular when records is
empty, since an empty DataFrame has no columns). The refined line type
therefore keeps a key absent from the object apart from a key present with
value null: both become a missing cell when the column exists, but only a
present key contributes a column. -/

/-- Value of one of the three selected keys inside one parsed JSON object:
the key is absent from the object, present with JSON null, or present with
a string value. -/
inductive JsonField where
  | absent : JsonField
  | null : JsonField
  | str (s : String) : JsonField
deriving DecidableEq

/-- Whether the key is present in the object, and so contributes a column
to pd.DataFrame(records). -/
def hasKey : JsonField → Bool
  | JsonField.absent => false
  | _ => true

/-- The cell the field becomes once its column exists: absent-from-object
and JSON null both give a missing cell (NaN), a string gives a value. -/
def toCell : JsonField → Option String
  | JsonField.str s => some s
  | _ => none

/-- Refined outcome of one raw input line: blank, malformed JSON, or a
parsed object described by its three selected keys. -/
inductive SrcLine where
  | blank : SrcLine
  | malformed : SrcLine
  | obj (id title abstract : JsonField) : SrcLine
deriving DecidableEq

/-- One parsed record as appended to the records list, before any pandas
processing. -/
structure RawRecord where
  id : JsonField
  title : JsonField
  abstract : JsonField
deriving DecidableEq

/-- Projection of a parsed line to a raw record. -/
def toRaw : SrcLine → Option RawRecord
  | SrcLine.obj i t a => some ⟨i, t, a⟩
  | _ => none

/-- The row a raw record becomes in the DataFrame once all three columns
exist. -/
def rawToRow (r : RawRecord) : Row :=
  ⟨toCell r.id, toCell r.title, toCell r.abstract⟩

/-- The loading loop body over the refined lines, as in loadLines: skip a
blank line, abort on a malformed line, append a parsed object. -/
def loadSrcLines : List SrcLine → Except Unit (List RawRecord)
  | [] => Except.ok []
  | SrcLine.blank :: rest => loadSrcLines rest
  | SrcLine.malformed :: _ => Except.error ()
  | SrcLine.obj i t a :: rest =>
      Except.map (fun rs => ⟨i, t, a⟩ :: rs) (loadSrcLines rest)

def isBlankSrc : SrcLine → Bool
  | SrcLine.blank => true
  | _ => false

/-- Number of refined lines whose strip() is nonempty. -/
def countNonBlankSrc (lines : List SrcLine) : ℕ :=
  (lines.filter (fun l => !isBlankSrc l)).length

/-- The full pandas build of cell f8a3484e:
DataFrame(records).loc[:, [id, title, abstract]].dropna().reset_index.
The .loc selection succeeds exactly when each of the three keys is present
in at least one record; otherwise the requested label is not among the
DataFrame columns and .loc raises an uncaught KeyError, modelled as
Except.error. On success the build is buildDf over the projected rows. -/
def locDropnaReset (records : List RawRecord) : Except Unit (List (ℕ × Row)) :=
  if (records.any fun r => hasKey r.id) &&
      (records.any fun r => hasKey r.title) &&
      (records.any fun r => hasKey r.abstract) then
    Except.ok (buildDf (records.map rawToRow))
  else
    Except.error ()

/-- The whole load step of cell f8a3484e over the refined lines: run the
reading loop on the first N lines, then the pandas build; an exception in
either part (JSONDecodeError or KeyError) aborts the cell. -/
def loadDf (N : ℕ) (lines : List SrcLine) : Except Unit (List (ℕ × Row)) :=
  Except.bind (loadSrcLines (lines.take N)) locDropnaReset

theorem loadSrcLines_ok (lines : List SrcLine)
    (h : ∀ l ∈ lines, l ≠ SrcLine.malformed) :
    loadSrcLines lines = Except.ok (lines.filterMap toRaw) := by
  induction lines with
  | nil => rfl
  | cons hd tl ih =>
    have htl : ∀ l ∈ tl, l ≠ SrcLine.malformed :=
      fun l hl => h l (List.mem_cons_of_mem _ hl)
    cases hd with
    | blank => simpa [loadSrcLines, toRaw] using ih htl
    | malformed => exact absurd rfl (h SrcLine.malformed (List.mem_cons_self _ _))
    | obj i t a => simp [loadSrcLines, toRaw, ih htl, Except.map]

theorem filterMap_toRaw_eq (lines : List SrcLine)
    (h : ∀ l ∈ lines, l ≠ SrcLine.malformed) :
    (lines.filterMap toRaw).length = countNonBlankSrc lines := by
  induction lines with
  | nil => simp [countNonBlankSrc]
  | cons hd tl ih =>
    have htl : ∀ l ∈ tl, l ≠ SrcLine.malformed :=
      fun l hl => h l (List.mem_cons_of_mem _ hl)
    cases hd with
    | blank =>
        simpa [toRaw, countNonBlankSrc, isBlankSrc, List.filterMap_cons] using ih htl
    | malformed => exact absurd rfl (h SrcLine.malformed (List.mem_cons_self _ _))
    | obj i t a =>
        simp only [toRaw, countNonBlankSrc, isBlankSrc, List.filterMap_cons,
          List.filter_cons]
        simpa [List.length_cons, countNonBlankSrc] using congrArg Nat.succ (ih htl)

/-- Sample input in the simplified view, used by the record-count witness:
a record with all three fields, a blank line, and a record with a missing
title field. -/
def sampleLines : List JsonLine :=
  [JsonLine.record (some "0704.0001") (some "T") (some "A"),
   JsonLine.blank,
   JsonLine.record (some "0704.0002") none (some "B")]

/-- Sample refined input used by the C1 and C2 witnesses: a record with all
three keys holding strings, a blank line, and a record whose title key is
present but null. All three columns exist (each key appears in the first
record), so the pandas build succeeds and the second record is dropped by
dropna. -/
def sampleSrcLines : List SrcLine :=
  [SrcLine.obj (JsonField.str "0704.0001") (JsonField.str "T") (JsonField.str "A"),
   SrcLine.blank,
   SrcLine.obj (JsonField.str "0704.0002") JsonField.null (JsonField.str "B")]

/-- Claim C1 counterexample: the claim says that for every input file both
failure kinds are absorbed by null-drop and the load step completes. On a
file whose first line is malformed JSON, json.loads raises an uncaught
JSONDecodeError; and on a file whose only record lacks the title key, the
title column is absent from the DataFrame and .loc raises an uncaught
KeyError. In both cases the load step aborts instead of returning a
DataFrame. -/
theorem claim_C1_counterexample :
    loadDf 200000 [SrcLine.malformed] = Except.error () ∧
    loadDf 200000
        [SrcLine.obj (JsonField.str "1") JsonField.absent (JsonField.str "a")]
      = Except.error () ∧
    ¬ ∃ df, loadDf 200000
        [SrcLine.obj (JsonField.str "1") JsonField.absent (JsonField.str "a")]
      = Except.ok df := by
  refine ⟨rfl, rfl, ?_⟩
  rintro ⟨df, h⟩
  rw [show loadDf 200000
      [SrcLine.obj (JsonField.str "1") JsonField.absent (JsonField.str "a")]
      = Except.error () from rfl] at h
  cases h

/-- Claim C1 (amended): records missing fields are handled by default
null-drop behavior, with the load completing and the DataFrame omitting the
incomplete rows, only when no examined line is malformed JSON and each of
the three selected keys is present in at least one parsed record; a
malformed line raises an unhandled JSONDecodeError, and a key absent from
every record (in particular an empty record list) makes the .loc column
selection raise an unhandled KeyError, stopping the load either way (see
the counterexample). -/
theorem claim_C1 (N : ℕ) (lines : List SrcLine)
    (h : ∀ l ∈ lines.take N, l ≠ SrcLine.malformed)
    (hid : (((lines.take N).filterMap toRaw).any fun r => hasKey r.id) = true)
    (ht : (((lines.take N).filterMap toRaw).any fun r => hasKey r.title) = true)
    (ha : (((lines.take N).filterMap toRaw).any fun r => hasKey r.abstract) = true) :
    ∃ df, loadDf N lines = Except.ok df ∧
      ∀ r ∈ ((lines.take N).filterMap toRaw).map rawToRow,
        complete r = false → ∀ p ∈ df, p.2 ≠ r := by
  refine ⟨buildDf (((lines.take N).filterMap toRaw).map rawToRow), ?_, ?_⟩
  · rw [loadDf, loadSrcLines_ok _ h]
    show locDropnaReset ((lines.take N).filterMap toRaw) = _
    rw [locDropnaReset, hid, ht, ha]
    rfl
  · intro r _ hc p hp he
    have hmem : p.2 ∈ (buildDf (((lines.take N).filterMap toRaw).map rawToRow)).map
        Prod.snd := List.mem_map_of_mem _ hp
    rw [buildDf, withIdx_map_snd] at hmem
    have hcm := List.of_mem_filter hmem
    rw [he, hc] at hcm
    cases hcm

/-- Claim C1 witness: on a concrete file with a fully populated record, a
blank line and a record whose title is null, the load completes and every
row of the built DataFrame differs from the incomplete record. -/
theorem claim_C1_witness :
    ∃ df, loadDf 200000 sampleSrcLines = Except.ok df ∧
      ∀ r ∈ ((sampleSrcLines.take 200000).filterMap toRaw).map rawToRow,
        complete r = false → ∀ p ∈ df, p.2 ≠ r :=
  claim_C1 200000 sampleSrcLines (by decide) (by decide) (by decide) (by decide)

/-- Claim C2 counterexample: the claim quantifies over every input file,
but on the empty file the record list is empty, pd.DataFrame of it has no
columns at all, and the .loc selection of id, title, abstract raises an
uncaught KeyError: no DataFrame is loaded, so the claimed shape facts hold
of nothing. -/
theorem claim_C2_counterexample :
    loadDf 200000 ([] : List SrcLine) = Except.error () ∧
    ¬ ∃ df, loadDf 200000 ([] : List SrcLine) = Except.ok df := by
  refine ⟨rfl, ?_⟩
  rintro ⟨df, h⟩
  rw [show loadDf 200000 ([] : List SrcLine) = Except.error () from rfl] at h
  cases h

/-- Claim C2 (amended): on a file whose examined prefix parses (no
malformed line) and in which each of the three selected keys is present in
at least one parsed record, the load step parses each non-blank line among
the first N lines as one standalone JSON record (the parsed-record count
equals the non-blank line count), and the loaded DataFrame consists exactly
of the complete (id, title, abstract) rows, indexed 0..n-1 by
reset_index. -/
theorem claim_C2 (N : ℕ) (lines : List SrcLine)
    (h : ∀ l ∈ lines.take N, l ≠ SrcLine.malformed)
    (hid : (((lines.take N).filterMap toRaw).any fun r => hasKey r.id) = true)
    (ht : (((lines.take N).filterMap toRaw).any fun r => hasKey r.title) = true)
    (ha : (((lines.take N).filterMap toRaw).any fun r => hasKey r.abstract) = true) :
    loadDf N lines
        = Except.ok (buildDf (((lines.take N).filterMap toRaw).map rawToRow)) ∧
    ((lines.take N).filterMap toRaw).length = countNonBlankSrc (lines.take N) ∧
    (buildDf (((lines.take N).filterMap toRaw).map rawToRow)).map Prod.snd
        = dropna (((lines.take N).filterMap toRaw).map rawToRow) ∧
    (buildDf (((lines.take N).filterMap toRaw).map rawToRow)).map Prod.fst
        = List.range
            (dropna (((lines.take N).filterMap toRaw).map rawToRow)).length := by
  refine ⟨?_, filterMap_toRaw_eq _ h, ?_, ?_⟩
  · rw [loadDf, loadSrcLines_ok _ h]
    show locDropnaReset ((lines.take N).filterMap toRaw) = _
    rw [locDropnaReset, hid, ht, ha]
    rfl
  · rw [buildDf, withIdx_map_snd]
  · rw [buildDf, withIdx_map_fst]
    simp

/-- Claim C2 witness: the load and DataFrame shape facts evaluated on the
concrete refined sample file. -/
theorem claim_C2_witness :
    loadDf 200000 sampleSrcLines
        = Except.ok (buildDf (((sampleSrcLines.take 200000).filterMap toRaw).map rawToRow)) ∧
    ((sampleSrcLines.take 200000).filterMap toRaw).length
        = countNonBlankSrc (sampleSrcLines.take 200000) ∧
    (buildDf (((sampleSrcLines.take 200000).filterMap toRaw).map rawToRow)).map Prod.snd
        = dropna (((sampleSrcLines.take 200000).filterMap toRaw).map rawToRow) ∧
    (buildDf (((sampleSrcLines.take 200000).filterMap toRaw).map rawToRow)).map Prod.fst
        = List.range
            (dropna (((sampleSrcLines.take 200000).filterMap toRaw).map rawToRow)).length :=
  claim_C2 200000 sampleSrcLines (by decide) (by decide) (by decide) (by decide)

/-- Claim C10: when the examined prefix parses, the number of loaded
records is at most min N (non-blank lines among the first N lines): blank
lines consume loop budget because the break at the index bound precedes the
blank-line skip, and dropna only shrinks the record set. Moreover a blank
line or an incomplete record among the examined prefix forces strictly
fewer than N loaded records. -/
theorem claim_C10 (N : ℕ) (lines : List JsonLine)
    (h : ∀ l ∈ lines.take N, l ≠ JsonLine.malformed) :
    ∃ rs, loadRecords N lines = Except.ok rs ∧
      (buildDf rs).length ≤ min N (countNonBlank (lines.take N)) ∧
      (((∃ l ∈ lines.take N, l = JsonLine.blank) ∨ ∃ r ∈ rs, complete r = false) →
        (buildDf rs).length < N) := by
  refine ⟨(lines.take N).filterMap toRow, loadLines_ok _ h, ?_, ?_⟩
  · have h1 : (buildDf ((lines.take N).filterMap toRow)).length
        = (dropna ((lines.take N).filterMap toRow)).length := withIdx_length 0 _
    have h2 : (dropna ((lines.take N).filterMap toRow)).length
        ≤ ((lines.take N).filterMap toRow).length := List.length_filter_le _ _
    have h3 := filterMap_toRow_le (lines.take N)
    have h4 : countNonBlank (lines.take N) ≤ (lines.take N).length :=
      List.length_filter_le _ _
    have h5 : (lines.take N).length ≤ N := List.length_take_le _ _
    omega
  · have h1 : (buildDf ((lines.take N).filterMap toRow)).length
        = (dropna ((lines.take N).filterMap toRow)).length := withIdx_length 0 _
    rintro (⟨l, hl, rfl⟩ | ⟨r, hr, hc⟩)
    · have hlt : countNonBlank (lines.take N) < (lines.take N).length :=
        length_filter_lt _ _ JsonLine.blank hl (by simp [isBlank])
      have h2 : (dropna ((lines.take N).filterMap toRow)).length
          ≤ ((lines.take N).filterMap toRow).length := List.length_filter_le _ _
      have h3 := filterMap_toRow_le (lines.take N)
      have h5 : (lines.take N).length ≤ N := List.length_take_le _ _
      omega
    · have hlt : (dropna ((lines.take N).filterMap toRow)).length
          < ((lines.take N).filterMap toRow).length :=
        length_filter_lt _ _ r hr hc
      have h3 : ((lines.take N).filterMap toRow).length ≤ (lines.take N).length :=
        List.length_filterMap_le _ _
      have h5 : (lines.take N).length ≤ N := List.length_take_le _ _
      omega

/-- Claim C10 witness: the record-count bounds evaluated on a concrete file
holding a blank line and an incomplete record. -/
theorem claim_C10_witness :
    ∃ rs, loadRecords 200000 sampleLines = Except.ok rs ∧
      (buildDf rs).length ≤ min 200000 (countNonBlank (sampleLines.take 200000)) ∧
      (((∃ l ∈ sampleLines.take 200000, l = JsonLine.blank) ∨
          ∃ r ∈ rs, complete r = false) →
        (buildDf rs).length < 200000) :=
  claim_C10 200000 sampleLines (by decide)

/-! Hyperparameter constants of cell f861fabf, with the source names. The
learning rate is a configuration literal only, modelled as the exact
rational 1/1000. -/

def TRAIN_TEST_SPLIT : ℚ := 1 / 10

def MAX_INPUT_LENGTH : ℕ := 384

def MAX_TARGET_LENGTH : ℕ := 48

def MIN_TARGET_LENGTH : ℕ := 5

def BATCH_SIZE : ℕ := 8

def LEARNING_RATE : ℚ := 1 / 1000

def MAX_EPOCHS : ℕ := 1

def MODEL_CHECKPOINT : String := "t5-small"

/-- Model of the Python str.startswith test used in cell ca1c60d8: the
leading characters of s equal the pattern. -/
def pyStartsWith (s pat : String) : Bool :=
  s.data.take pat.data.length == pat.data

/-- Cell ca1c60d8: T5 checkpoints get the task marker "summarize: "
prepended to every input, other checkpoints get nothing. -/
def prefixText : String :=
  if pyStartsWith MODEL_CHECKPOINT "t5-" then "summarize: " else ""

/-- Example of the Hugging Face dataset after the two rename_column calls of
cell 18ad6853: the abstract column becomes input_text and the title column
becomes target_text; the id column is untouched. -/
structure DsExample where
  id : Option String
  input_text : Option String
  target_text : Option String
deriving DecidableEq

/-- The two rename_column calls applied to a DataFrame row. -/
def renameColumns (r : Row) : DsExample :=
  ⟨r.id, r.abstract, r.title⟩

/-- Tokenizer call semantics with truncation = True and
padding = "max_length": keep at most maxLen token ids and pad with the pad
id up to exactly maxLen. The raw tokenization itself is external library
behavior, passed in as a function. -/
def padTruncate (padId maxLen : ℕ) (ts : List ℕ) : List ℕ :=
  ts.take maxLen ++ List.replicate (maxLen - ts.length) padId

theorem padTruncate_length (padId maxLen : ℕ) (ts : List ℕ) :
    (padTruncate padId maxLen ts).length = maxLen := by
  simp [padTruncate]
  omega

/-- Output record of preprocess_function (cell 0a20ef81): tokenized inputs
plus the label ids assigned from the tokenized targets. -/
structure TokenizedExample where
  input_ids : List ℕ
  labels : List ℕ
deriving DecidableEq

/-- preprocess_function of cell 0a20ef81 on one example: the prefixed
input_text is tokenized with truncation and padding to MAX_INPUT_LENGTH,
and the target_text is tokenized to MAX_TARGET_LENGTH as the labels. -/
def preprocess_function (tok : String → List ℕ) (padId : ℕ)
    (input_text target_text : String) : TokenizedExample :=
  ⟨padTruncate padId MAX_INPUT_LENGTH (tok (prefixText ++ input_text)),
   padTruncate padId MAX_TARGET_LENGTH (tok target_text)⟩

/-- Claim C5: the abstract column is renamed input_text and the title
column target_text; because the t5-small checkpoint name starts with t5-,
every model input is the abstract prefixed with "summarize: ", tokenized
with truncation and padding to 384 tokens, and the labels are the tokenized
title, at most 48 tokens. -/
theorem claim_C5 :
    pyStartsWith MODEL_CHECKPOINT "t5-" = true ∧
    prefixText = "summarize: " ∧
    (∀ r : Row, (renameColumns r).input_text = r.abstract ∧
      (renameColumns r).target_text = r.title) ∧
    (∀ (tok : String → List ℕ) (padId : ℕ) (input_text target_text : String),
      (preprocess_function tok padId input_text target_text).input_ids
          = padTruncate padId 384 (tok ("summarize: " ++ input_text)) ∧
      (preprocess_function tok padId input_text target_text).input_ids.length = 384 ∧
      (preprocess_function tok padId input_text target_text).labels
          = padTruncate padId 48 (tok target_text) ∧
      (preprocess_function tok padId input_text target_text).labels.length ≤ 48) := by
  refine ⟨by decide, rfl, fun r => ⟨rfl, rfl⟩, ?_⟩
  intro tok padId input_text target_text
  refine ⟨rfl, padTruncate_length _ _ _, rfl, ?_⟩
  rw [show (preprocess_function tok padId input_text target_text).labels
      = padTruncate padId 48 (tok target_text) from rfl]
  rw [padTruncate_length]

/-! The compile and fit calls (cells f9d0e222 and af828bf3). -/

/-- Arguments of the model.fit call in cell af828bf3. -/
structure FitArgs where
  epochs : ℕ
  stepsPerEpoch : ℕ
  validationSteps : ℕ
deriving DecidableEq

def fitArgs : FitArgs := ⟨3, 500, 50⟩

/-- The optimizer argument of model.compile in cell f9d0e222: the plain
string "adam", the Keras default Adam configuration. -/
def compileOptimizer : String := "adam"

/-- Global constant names referenced by each code cell after the constants
cell f861fabf, read off the notebook source cell by cell. -/
def usedConstantsByCell : List (String × List String) :=
  [("f8a3484e", []),
   ("18ad6853", ["TRAIN_TEST_SPLIT"]),
   ("5a52a572", ["MODEL_CHECKPOINT"]),
   ("ca1c60d8", ["MODEL_CHECKPOINT"]),
   ("0a20ef81", ["MAX_INPUT_LENGTH", "MAX_TARGET_LENGTH"]),
   ("00e60b01", []),
   ("b6510686", ["BATCH_SIZE"]),
   ("f9d0e222", []),
   ("d66aaa61", []),
   ("c44c8f54", []),
   ("af828bf3", []),
   ("5cc2cfd9", [])]

/-- Claim C8: MAX_EPOCHS = 1 and LEARNING_RATE = 0.001 are declared but no
later cell reads either constant; training calls model.fit with epochs = 3,
which differs from MAX_EPOCHS, and the model is compiled with the string
"adam", so neither constant governs the training run. -/
theorem claim_C8 :
    (usedConstantsByCell.all
      (fun c => !(c.2.contains "MAX_EPOCHS") && !(c.2.contains "LEARNING_RATE"))) = true ∧
    MAX_EPOCHS = 1 ∧ LEARNING_RATE = 1 / 1000 ∧
    fitArgs.epochs = 3 ∧ fitArgs.epochs ≠ MAX_EPOCHS ∧
    compileOptimizer = "adam" :=
  ⟨by decide, rfl, rfl, rfl, by decide, rfl⟩

/-! Evaluation: cells b6510686 (generation_dataset), d66aaa61 (metric_fn)
and c44c8f54 (KerasMetricCallback). The seed-42 dataset shuffle, the
tokenizer batch_decode and the keras_hub RougeL computation are external
library behavior, passed in as function parameters. -/

/-- Cell b6510686: the generation dataset is the test split shuffled once
with seed 42 and then restricted by select(range(200)) to its first 200
examples. -/
def generationDataset {α : Type} (shuffle42 : List α → List α)
    (testSplit : List α) : List α :=
  (shuffle42 testSplit).take 200

/-- Result record of the keras_hub RougeL metric; only its f1_score field
is read by metric_fn. Scores are modelled as exact rationals. -/
structure RougeResult where
  f1_score : ℚ
deriving DecidableEq

/-- The np.clip call of metric_fn on one row of predicted token ids: each
id is clamped into the interval from 0 to vocabSize - 1. -/
def clipPredRow (vocabSize : ℕ) (row : List ℤ) : List ℤ :=
  row.map (fun p => min (max p 0) ((vocabSize : ℤ) - 1))

/-- The np.where call of metric_fn on one row of label ids: each negative
id (the -100 loss-masking sentinel) is replaced by the pad token id, other
ids pass through unchanged. -/
def fixLabelRow (padId : ℤ) (row : List ℤ) : List ℤ :=
  row.map (fun l => if l < 0 then padId else l)

/-- metric_fn of cell d66aaa61: clip the predictions, decode predictions
and labels with skip_special_tokens = True (the Boolean argument of the
batchDecode parameter), replace negative label ids by the pad id, call the
RougeL metric on decoded labels against decoded predictions and return the
dictionary entry named RougeL holding the f1_score. -/
def metric_fn (vocabSize : ℕ) (padId : ℤ)
    (batchDecode : Bool → List (List ℤ) → List String)
    (rougeL : List String → List String → RougeResult)
    (preds labels : List (List ℤ)) : String × ℚ :=
  let clippedPreds := preds.map (clipPredRow vocabSize)
  let decodedPreds := batchDecode true clippedPreds
  let fixedLabels := labels.map (fixLabelRow padId)
  let decodedLabels := batchDecode true fixedLabels
  ("RougeL", (rougeL decodedLabels decodedPreds).f1_score)

/-- Claim C3: when the seed-42 shuffle is a permutation and the test split
has at least 200 examples, the generation dataset holds exactly 200
examples, all drawn from the test split; and metric_fn decodes the clipped
predictions and the pad-substituted labels with special tokens skipped and
reports the RougeL f1_score of the decoded predictions against the decoded
reference titles. -/
theorem claim_C3 {α : Type} (shuffle42 : List α → List α) (testSplit : List α)
    (hperm : ∀ l : List α, (shuffle42 l).Perm l)
    (hlen : 200 ≤ testSplit.length) :
    (generationDataset shuffle42 testSplit).length = 200 ∧
    generationDataset shuffle42 testSplit ⊆ testSplit ∧
    (∀ (vocabSize : ℕ) (padId : ℤ)
      (batchDecode : Bool → List (List ℤ) → List String)
      (rougeL : List String → List String → RougeResult)
      (preds labels : List (List ℤ)),
      metric_fn vocabSize padId batchDecode rougeL preds labels
        = ("RougeL",
            (rougeL (batchDecode true (labels.map (fixLabelRow padId)))
              (batchDecode true (preds.map (clipPredRow vocabSize)))).f1_score)) := by
  refine ⟨?_, ?_, fun _ _ _ _ _ _ => rfl⟩
  · have hl := (hperm testSplit).length_eq
    simp [generationDataset, hl]
    omega
  · intro x hx
    have hx2 : x ∈ shuffle42 testSplit := List.mem_of_mem_take hx
    exact (hperm testSplit).mem_iff.mp hx2

/-- Decoder stub used by the claim C3 witness. -/
def constDecode : Bool → List (List ℤ) → List String := fun _ _ => []

/-- Metric stub used by the claim C3 witness. -/
def constRouge : List String → List String → RougeResult := fun _ _ => ⟨1⟩

/-- Claim C3 witness: the generation-dataset facts at the identity shuffle
on a 200-element test split, and metric_fn evaluated at concrete stub
arguments. -/
theorem claim_C3_witness :
    (generationDataset id (List.range 200)).length = 200 ∧
    generationDataset id (List.range 200) ⊆ List.range 200 ∧
    metric_fn 10 0 constDecode constRouge [[3]] [[-2]] = ("RougeL", 1) := by
  have h := claim_C3 (id : List ℕ → List ℕ) (List.range 200)
    (fun l => List.Perm.refl l) (by simp)
  exact ⟨h.1, h.2.1, by
    simpa [constDecode, constRouge] using
      h.2.2 10 0 constDecode constRouge [[3]] [[-2]]⟩

/-- Claim C9 counterexample: the claim says batch_decode is never given a
negative or out-of-vocabulary token id. Predictions are clipped, but label
ids are only rewritten when negative: with vocabulary size 10 and pad id 0,
the label id 15 passes through the np.where step unchanged and reaches
batch_decode even though it exceeds the largest vocabulary id 9. -/
theorem claim_C9_counterexample :
    fixLabelRow 0 [(15 : ℤ)] = [(15 : ℤ)] ∧
    (15 : ℤ) ∈ fixLabelRow 0 [(15 : ℤ)] ∧
    ¬ ((15 : ℤ) ≤ (10 : ℤ) - 1) := by
  refine ⟨rfl, ?_, by decide⟩
  rw [show fixLabelRow 0 [(15 : ℤ)] = [(15 : ℤ)] from rfl]
  exact List.mem_singleton.mpr rfl

/-- Claim C9 (amended): metric_fn is total on any integer arrays; every
predicted token id is clipped into the interval from 0 to vocabSize - 1,
and every negative label id is replaced by the (nonnegative) pad token id,
so batch_decode never receives a negative id, nor an out-of-vocabulary
prediction id; an out-of-vocabulary nonnegative label id, however, passes
through to batch_decode unchanged (see the counterexample). -/
theorem claim_C9 (vocabSize : ℕ) (hv : 1 ≤ vocabSize) (padId : ℤ)
    (hp : 0 ≤ padId) (predRow labelRow : List ℤ) :
    (∀ t ∈ clipPredRow vocabSize predRow, 0 ≤ t ∧ t ≤ (vocabSize : ℤ) - 1) ∧
    (∀ t ∈ fixLabelRow padId labelRow, 0 ≤ t) := by
  constructor
  · intro t ht
    rcases List.mem_map.mp ht with ⟨p, _, rfl⟩
    constructor
    · have h0 : (0 : ℤ) ≤ max p 0 := le_max_right _ _
      have h1 : (0 : ℤ) ≤ (vocabSize : ℤ) - 1 := by
        have : (1 : ℤ) ≤ (vocabSize : ℤ) := by exact_mod_cast hv
        omega
      exact le_min h0 h1
    · exact min_le_right _ _
  · intro t ht
    rcases List.mem_map.mp ht with ⟨l, _, rfl⟩
    by_cases hl : l < 0
    · simpa [hl] using hp
    · simpa [hl] using le_of_not_lt hl

/-- Claim C9 witness: the token-id range facts applied at vocabulary size
10 and pad id 0 to the concrete clipped prediction id 5 and the concrete
rewritten label id 0. -/
theorem claim_C9_witness :
    ((0 : ℤ) ≤ 5 ∧ (5 : ℤ) ≤ (10 : ℤ) - 1) ∧ (0 : ℤ) ≤ 0 :=
  ⟨(claim_C9 10 (by decide) 0 (by decide) [5] [-2]).1 5 (by decide),
   (claim_C9 10 (by decide) 0 (by decide) [5] [-2]).2 0 (by decide)⟩

/-! Pipeline shape, filesystem effects and environment configuration. -/

/-- The six pipeline stages named by the specification. -/
inductive Stage where
  | loadJson : Stage
  | buildDataset : Stage
  | tokenizeData : Stage
  | trainModel : Stage
  | evaluateModel : Stage
  | inferTitles : Stage
deriving DecidableEq

/-- The external library API each stage calls directly; no stage runs
repository-owned algorithmic code. -/
def stageLibrary : Stage → String
  | Stage.loadJson => "json.loads + pandas.DataFrame"
  | Stage.buildDataset => "datasets.Dataset"
  | Stage.tokenizeData => "transformers.AutoTokenizer via splits.map"
  | Stage.trainModel => "keras Model.fit"
  | Stage.evaluateModel => "keras_hub.metrics.RougeL via KerasMetricCallback"
  | Stage.inferTitles => "transformers.pipeline"

/-- The stage trace of one notebook run, cell by cell: cell f8a3484e loads
the JSON, cell 18ad6853 builds and splits the dataset, cells 5a52a572
through 00e60b01 tokenize it, and the single model.fit call of cell
af828bf3 runs epochs = 3, each epoch training and then evaluating (the
validation pass and the KerasMetricCallback run at each epoch end); cell
5cc2cfd9 then builds the inference pipeline. The trace is one fixed list:
the script has no branching, no exception handler and no retry loop. -/
def notebookTrace : List Stage :=
  [Stage.loadJson, Stage.buildDataset, Stage.tokenizeData,
   Stage.trainModel, Stage.evaluateModel,
   Stage.trainModel, Stage.evaluateModel,
   Stage.trainModel, Stage.evaluateModel,
   Stage.inferTitles]

/-- Claim C4: the distinct stages of the run, in order of first appearance,
are exactly load JSON, build dataset, tokenize, train, evaluate, infer, and
every stage in the trace is a direct call into an external library. -/
theorem claim_C4 :
    notebookTrace.dedup
      = [Stage.loadJson, Stage.buildDataset, Stage.tokenizeData,
         Stage.trainModel, Stage.evaluateModel, Stage.inferTitles] ∧
    notebookTrace.map stageLibrary
      = ["json.loads + pandas.DataFrame", "datasets.Dataset",
         "transformers.AutoTokenizer via splits.map",
         "keras Model.fit", "keras_hub.metrics.RougeL via KerasMetricCallback",
         "keras Model.fit", "keras_hub.metrics.RougeL via KerasMetricCallback",
         "keras Model.fit", "keras_hub.metrics.RougeL via KerasMetricCallback",
         "transformers.pipeline"] := by
  exact ⟨by decide, rfl⟩

/-- Access mode of a filesystem operation. -/
inductive FMode where
  | read : FMode
  | write : FMode
deriving DecidableEq

/-- One filesystem access made by repository code. -/
structure FileAccess where
  path : String
  fmode : FMode
deriving DecidableEq

/-- Every filesystem access written in the notebook source: the single
open call of cell f8a3484e, in mode "r". No cell calls a write API (no
open in a write mode, no to_csv, no save_pretrained, no model.save). -/
def scriptFileAccesses : List FileAccess :=
  [⟨"arxiv-metadata-oai-snapshot.json", FMode.read⟩]

/-- The write accesses among the accesses of the script. -/
def writeAccesses : List FileAccess :=
  scriptFileAccesses.filter (fun a => decide (a.fmode = FMode.write))

/-- Claim C6: the only filesystem access performed by repository code opens
arxiv-metadata-oai-snapshot.json in read mode, and no operation of the
script writes any file. -/
theorem claim_C6 :
    scriptFileAccesses = [⟨"arxiv-metadata-oai-snapshot.json", FMode.read⟩] ∧
    writeAccesses = [] := by
  exact ⟨rfl, by decide⟩

/-- Every environment variable assignment made by the notebook source: the
single os.environ assignment of cell 42c30f47. -/
def envSettings : List (String × String) :=
  [("TOKENIZERS_PARALLELISM", "false")]

/-- Whether an environment variable governs parallel execution of an
external component: TOKENIZERS_PARALLELISM switches the multi-threaded
tokenization of the Hugging Face tokenizers library on or off. -/
def controlsParallelism (n : String) : Bool :=
  n == "TOKENIZERS_PARALLELISM"

/-- Claim C7 counterexample: the claim says no operation of repository code
controls any form of parallelism, yet the script assigns the environment
variable TOKENIZERS_PARALLELISM the value false, which disables the
multi-threaded tokenization of the tokenizers library, so the list of
parallelism-controlling settings made by the script is not empty. -/
theorem claim_C7_counterexample :
    ("TOKENIZERS_PARALLELISM", "false") ∈ envSettings ∧
    controlsParallelism "TOKENIZERS_PARALLELISM" = true ∧
    envSettings.filter (fun p => controlsParallelism p.1) ≠ [] := by
  refine ⟨?_, by decide, by decide⟩
  rw [envSettings]
  exact List.mem_singleton.mpr rfl

/-- Claim C7 (amended): batched computation and data-loading prefetch are
internal to the external framework, and the one parallelism-related
operation in repository code is the single environment assignment that
disables multi-threaded tokenization: the parallelism-controlling settings
of the script are exactly TOKENIZERS_PARALLELISM = false. -/
theorem claim_C7 :
    envSettings.filter (fun p => controlsParallelism p.1)
      = [("TOKENIZERS_PARALLELISM", "false")] := by
  decide

end ArxivSummarizer
